import Mathlib

/-!
Shallow embedding of `src/prediction/predictor_model.py`: a multi-series
autoregressive forecaster (one RandomForest-backed `ForecasterAutoreg` per
entity).  DataFrames are embedded as column-name lists plus row lists of
cells; pandas `groupby` (default `sort=True`) is embedded with sorted unique
keys; fallible operations return `Except PyError`.  The tree-ensemble
regressor itself is out of scope per the spec and is abstracted as an
explicit deterministic function argument `reg` from (hyperparameters,
training matrix, training labels, feature vector) to a predicted cell.
-/

namespace PredictorModel

/-- A pandas cell value: we need integers for numeric data and strings for
entity identifiers. -/
inductive Cell where
  | int (i : Int)
  | str (s : String)
deriving DecidableEq, Repr

/-- Errors surfaced by the Python code paths we embed: pandas `KeyError`,
library `ValueError`, sklearn `NotFittedError`, attribute errors on `None`. -/
inductive PyError where
  | keyError (k : String)
  | valueError (msg : String)
  | notFittedError
  | attributeError
deriving DecidableEq, Repr

/-- Lexicographic comparison of character lists (by code point), written by
structural recursion so that it reduces inside the kernel. -/
def charListLe : List Char → List Char → Bool
  | [], _ => true
  | _ :: _, [] => false
  | a :: as, b :: bs =>
    if a.val.toNat < b.val.toNat then true
    else if b.val.toNat < a.val.toNat then false
    else charListLe as bs

/-- Total order on cells used to embed pandas' sorted group keys: integers
before strings, integers by their order, strings lexicographically. -/
def Cell.leB : Cell → Cell → Bool
  | .int i, .int j => decide (i ≤ j)
  | .int _, .str _ => true
  | .str _, .int _ => false
  | .str s, .str t => charListLe s.data t.data

instance : LE Cell := ⟨fun a b => Cell.leB a b = true⟩

instance : DecidableRel (· ≤ · : Cell → Cell → Prop) := fun a b =>
  inferInstanceAs (Decidable (Cell.leB a b = true))

instance : IsTotal Cell (· ≤ ·) where
  total a b := by
    have key : ∀ u v, charListLe u v = true ∨ charListLe v u = true := by
      intro u
      induction u with
      | nil => intro v; exact Or.inl rfl
      | cons x xs ih =>
        intro v
        cases v with
        | nil => exact Or.inr rfl
        | cons y ys =>
          by_cases h1 : x.val.toNat < y.val.toNat
          · exact Or.inl (by simp [charListLe, h1])
          · by_cases h2 : y.val.toNat < x.val.toNat
            · exact Or.inr (by simp [charListLe, h1, h2])
            · rcases ih ys with h | h
              · exact Or.inl (by simp [charListLe, h1, h2, h])
              · exact Or.inr (by simp [charListLe, h1, h2, h])
    cases a with
    | int i =>
      cases b with
      | int j =>
        rcases le_total i j with h | h
        · exact Or.inl (show Cell.leB _ _ = true by simp [Cell.leB, h])
        · exact Or.inr (show Cell.leB _ _ = true by simp [Cell.leB, h])
      | str t => exact Or.inl rfl
    | str s =>
      cases b with
      | int j => exact Or.inr rfl
      | str t => exact key s.data t.data

instance : IsTrans Cell (· ≤ ·) where
  trans a b c h1 h2 := by
    have key : ∀ u v w, charListLe u v = true → charListLe v w = true →
        charListLe u w = true := by
      intro u
      induction u with
      | nil => intro v w _ _; rfl
      | cons x xs ih =>
        intro v w hab hbc
        cases v with
        | nil => simp [charListLe] at hab
        | cons y ys =>
          cases w with
          | nil => simp [charListLe] at hbc
          | cons z zs =>
            simp only [charListLe] at hab hbc ⊢
            by_cases h1 : x.val.toNat < y.val.toNat <;>
              by_cases h2 : y.val.toNat < z.val.toNat <;>
                by_cases h3 : y.val.toNat < x.val.toNat <;>
                  by_cases h4 : z.val.toNat < y.val.toNat <;>
                    simp only [h1, h2, h3, h4, if_true, if_false,
                      if_pos, if_neg, not_false_iff] at hab hbc ⊢ <;>
                      first
                        | rfl
                        | omega
                        | simp [show x.val.toNat < z.val.toNat by omega]
                        | (simp [show ¬x.val.toNat < z.val.toNat by omega,
                                 show ¬z.val.toNat < x.val.toNat by omega]
                           exact ih ys zs (by simpa [h1, h3] using hab)
                             (by simpa [h2, h4] using hbc))
                        | simp_all
    cases a with
    | int i =>
      cases c with
      | str w =>
        cases b <;> exact rfl
      | int k =>
        cases b with
        | str t => exact absurd h2 (by simp [show (Cell.str t ≤ Cell.int k) =
            (Cell.leB (Cell.str t) (Cell.int k) = true) from rfl, Cell.leB])
        | int j =>
          have hij : i ≤ j := by simpa [Cell.leB] using
            (show Cell.leB (Cell.int i) (Cell.int j) = true from h1)
          have hjk : j ≤ k := by simpa [Cell.leB] using
            (show Cell.leB (Cell.int j) (Cell.int k) = true from h2)
          exact show Cell.leB _ _ = true by simp [Cell.leB]; omega
    | str s =>
      cases b with
      | int j => exact absurd h1 (by simp [show (Cell.str s ≤ Cell.int j) =
          (Cell.leB (Cell.str s) (Cell.int j) = true) from rfl, Cell.leB])
      | str t =>
        cases c with
        | int k => exact absurd h2 (by simp [show (Cell.str t ≤ Cell.int k) =
            (Cell.leB (Cell.str t) (Cell.int k) = true) from rfl, Cell.leB])
        | str w => exact key s.data t.data w.data h1 h2

/-- Printable text of a cell, used as the payload of a pandas `KeyError` on a
missing group key. -/
def Cell.text : Cell → String
  | .int i => toString i
  | .str s => s

/-- A pandas DataFrame restricted to what the program uses: a list of column
names and a list of rows, each row holding one cell per column. -/
structure DataFrame where
  cols : List String
  rows : List (List Cell)
deriving DecidableEq, Repr

/-- Index of a column by name. -/
def DataFrame.colIdx? (df : DataFrame) (c : String) : Option Nat :=
  df.cols.findIdx? (· == c)

/-- `df[c]` for a single column: the column's cells, or `KeyError`. -/
def DataFrame.col (df : DataFrame) (c : String) : Except PyError (List Cell) :=
  match df.colIdx? c with
  | none => .error (.keyError c)
  | some i => .ok (df.rows.map (fun r => r.getD i (.int 0)))

/-- Left-to-right effectful map over `Except`, written by explicit recursion
(the meaning of a Python list comprehension or loop over fallible steps). -/
def listMapM (g : α → Except PyError β) : List α → Except PyError (List β)
  | [] => .ok []
  | a :: as => do
    let b ← g a
    let bs ← listMapM g as
    pure (b :: bs)

/-- `df[[c1, …, cn]]`: projection onto a list of columns, `KeyError` when one
is absent. -/
def DataFrame.select (df : DataFrame) (cs : List String) : Except PyError DataFrame := do
  let idxs ← listMapM (fun c =>
    match df.colIdx? c with
    | none => Except.error (.keyError c)
    | some i => Except.ok i) cs
  pure { cols := cs, rows := df.rows.map (fun r => idxs.map (fun i => r.getD i (.int 0))) }

/-- `df.drop(columns=c)`: every call site passes the identifier column of the
group it was extracted from, which exists, so a missing column is left as-is. -/
def DataFrame.dropCol (df : DataFrame) (c : String) : DataFrame :=
  match df.colIdx? c with
  | none => df
  | some i => { cols := df.cols.eraseIdx i, rows := df.rows.map (fun r => r.eraseIdx i) }

/-- `df[c] = vs`: overwrite the column when present, otherwise append it on
the right (the lengths agree at every call site). -/
def DataFrame.assign (df : DataFrame) (c : String) (vs : List Cell) : DataFrame :=
  match df.colIdx? c with
  | some i => { df with rows := (df.rows.zip vs).map (fun rv => rv.1.set i rv.2) }
  | none => { cols := df.cols ++ [c], rows := (df.rows.zip vs).map (fun rv => rv.1 ++ [rv.2]) }

/-- `df.insert(0, c, v)` with a scalar: new column at position 0, broadcast. -/
def DataFrame.insertCol0 (df : DataFrame) (c : String) (v : Cell) : DataFrame :=
  { cols := c :: df.cols, rows := df.rows.map (fun r => v :: r) }

/-- `df.rename(columns={old: new})`. -/
def DataFrame.renameCol (df : DataFrame) (old new : String) : DataFrame :=
  { df with cols := df.cols.map (fun c => if c = old then new else c) }

/-- `df.groupby(c).groups.keys()` with pandas' default `sort=True`: the
distinct values of column `c` in ascending order; `KeyError` when the column
is absent. -/
def DataFrame.groupKeys (df : DataFrame) (c : String) : Except PyError (List Cell) :=
  match df.colIdx? c with
  | none => .error (.keyError c)
  | some i => .ok (((df.rows.map (fun r => r.getD i (.int 0))).dedup).insertionSort (· ≤ ·))

/-- `groups.get_group(k)`: the rows whose `c`-cell equals `k`, in their
original order; pandas raises `KeyError` when no row has key `k`. -/
def DataFrame.getGroup (df : DataFrame) (c : String) (k : Cell) : Except PyError DataFrame :=
  match df.colIdx? c with
  | none => .error (.keyError c)
  | some i =>
    let rs := df.rows.filter (fun r => r.getD i (.int 0) == k)
    if rs.isEmpty then .error (.keyError k.text)
    else .ok { cols := df.cols, rows := rs }

/-- `pd.concat(dfs, axis=0, ignore_index=True)`; every call site concatenates
frames with identical columns.  pandas raises on an empty list. -/
def dfConcat : List DataFrame → Except PyError DataFrame
  | [] => .error (.valueError "No objects to concatenate")
  | d :: ds =>
    .ok { cols := d.cols
          rows := (d :: ds).foldr (fun x acc => x.rows ++ acc) [] }

/-- Python `series[-n:]` row slicing: the last `n` elements (all of them when
`n` exceeds the length). -/
def lastN (n : Nat) (l : List α) : List α := l.drop (l.length - n)

/-- The schema collaborator: identifier column, target column, future
covariate columns, forecast horizon. -/
structure ForecastingSchema where
  id_col : String
  target : String
  future_covariates : List String
  forecast_length : Nat
deriving DecidableEq, Repr

/-- Hyperparameters handed to `RandomForestRegressor` in `_fit_on_series`.
The source passes `n_estimators`, `min_samples_leaf`, `min_samples_split`
and `random_state`; `criterion` is stored on the wrapper but never passed,
so it is not part of the regressor's parameters. -/
structure RFParams where
  n_estimators : Nat := 50
  min_samples_split : Nat := 2
  min_samples_leaf : Nat := 1
  random_state : Nat := 0
deriving DecidableEq, Repr

/-- `lags: Union[int, List[int]]`: an int `n` means lags 1..n; a list means
exactly those lags. -/
inductive LagSpec where
  | upTo (n : Nat)
  | explicit (ls : List Nat)
deriving DecidableEq, Repr

/-- The lag offsets denoted by a `LagSpec`. -/
def LagSpec.toList : LagSpec → List Nat
  | .upTo n => (List.range n).map (· + 1)
  | .explicit ls => ls

/-- The tree-ensemble regressor is out of scope (a black-box deterministic
fit/predict capability): a `Regressor` maps the regressor hyperparameters,
the fitted design matrix, the fitted labels and one feature vector to a
predicted value. -/
abbrev Regressor := RFParams → List (List Cell) → List Cell → List Cell → Cell

/-- A fitted `skforecast.ForecasterAutoreg`: the lag offsets, the regressor
hyperparameters, the design matrix and labels the regressor was fitted on,
and the last `maxLag` observations of the training series (skforecast's
`last_window`), which seeds recursive prediction. -/
structure FittedFA where
  lags : List Nat
  maxLag : Nat
  params : RFParams
  trainX : List (List Cell)
  trainYlab : List Cell
  lastWindow : List Cell
deriving DecidableEq, Repr

/-- The lag feature vector for position `t` of series `y`: the values at
`t - lag` for each configured lag. -/
def lagRow (lags : List Nat) (y : List Cell) (t : Nat) : List Cell :=
  lags.map (fun lag => y.getD (t - lag) (.int 0))

/-- `ForecasterAutoreg(regressor, lags).fit(y, exog)`.  skforecast validates
that all lags are ≥ 1, that `len(y) > max_lag` (otherwise the lag matrix has
zero usable rows and it raises `ValueError`), and that `exog` has the same
length as `y`; it then builds one training row per position
`t = max_lag .. len(y)-1` (features: lagged targets, then the exogenous row
at `t`; label: `y[t]`) and fits the regressor. -/
def faFit (lags : List Nat) (params : RFParams) (y : List Cell)
    (exog : Option (List (List Cell))) : Except PyError FittedFA :=
  let maxLag := lags.foldr max 0
  if lags.isEmpty || lags.any (· == 0) then
    .error (.valueError "lags must be positive integers")
  else if y.length ≤ maxLag then
    .error (.valueError "the maximum lag must be less than the length of the series")
  else if exogLenBad exog y.length then
    .error (.valueError "exog must have the same number of samples as y")
  else
    let ts := List.range' maxLag (y.length - maxLag)
    .ok { lags := lags
          maxLag := maxLag
          params := params
          trainX := ts.map (fun t => lagRow lags y t ++ exogRow exog t)
          trainYlab := ts.map (fun t => y.getD t (.int 0))
          lastWindow := lastN maxLag y }
where
  exogLenBad : Option (List (List Cell)) → Nat → Bool
    | some e, n => e.length != n
    | none, _ => false
  exogRow : Option (List (List Cell)) → Nat → List Cell
    | some e, t => e.getD t []
    | none, _ => []

/-- The recursive forecasting loop: the rolling buffer starts as the training
series' last window; each step's features are the buffer values at the lag
offsets plus that step's exogenous row, the regressor's prediction is emitted
and appended to the buffer. -/
def recForecast (reg : Regressor) (m : FittedFA) :
    List Cell → List (List Cell) → List Cell
  | _, [] => []
  | buffer, e :: rest =>
    let feats := lagRow m.lags buffer buffer.length ++ e
    let p := reg m.params m.trainX m.trainYlab feats
    p :: recForecast reg m (buffer ++ [p]) rest

/-- `ForecasterAutoreg.predict(steps, exog)`: requires `exog` to cover
`steps` rows when supplied (ValueError otherwise), then runs the recursive
loop for `steps` steps. -/
def faPredict (reg : Regressor) (m : FittedFA) (steps : Nat)
    (exog : Option (List (List Cell))) : Except PyError (List Cell) :=
  match exog with
  | some e =>
    if e.length < steps then .error (.valueError "exog must have at least steps rows")
    else .ok (recForecast reg m m.lastWindow (e.take steps))
  | none => .ok (recForecast reg m m.lastWindow (List.replicate steps []))

/-- The wrapper class `Forecaster` of `predictor_model.py`: constructor
arguments (with their Python defaults) plus the state set by `fit`
(`_is_trained`, `models`, `all_ids`, `data_schema`). -/
structure Forecaster where
  n_estimators : Nat := 50
  criterion : String := "squared_error"
  min_samples_split : Nat := 2
  min_samples_leaf : Nat := 1
  lags : LagSpec := .explicit [2, 5, 7]
  random_state : Nat := 0
  is_trained : Bool := false
  models : List (Cell × FittedFA) := []
  all_ids : List Cell := []
  data_schema : Option ForecastingSchema := none
deriving DecidableEq, Repr

/-- The `exog = None; if covariates: exog = df[covariates]` pattern shared by
`_fit_on_series` and `_predict_on_series`: `None` when the schema lists no
future covariates, otherwise the selected covariate rows. -/
def exogFor (data_schema : ForecastingSchema) (df : DataFrame) :
    Except PyError (Option (List (List Cell))) :=
  if data_schema.future_covariates.isEmpty then pure none
  else do
    let e ← df.select data_schema.future_covariates
    pure (some e.rows)

/-- `Forecaster._fit_on_series`: build the regressor with the stored
hyperparameters (`criterion` is not passed), select the future covariates as
`exog` when the schema lists any, and fit a `ForecasterAutoreg` on the
series' target column. -/
def Forecaster.fitOnSeries (f : Forecaster) (history : DataFrame)
    (data_schema : ForecastingSchema) : Except PyError FittedFA := do
  let params : RFParams :=
    { n_estimators := f.n_estimators
      min_samples_split := f.min_samples_split
      min_samples_leaf := f.min_samples_leaf
      random_state := f.random_state }
  let exog ← exogFor data_schema history
  let y ← history.col data_schema.target
  faFit f.lags.toList params y exog

/-- `series[-history_length:]` guarded by `if history_length:` — `None` and
`0` are both falsy, so truncation happens only for a nonzero length. -/
def truncateHistory (history_length : Option Nat) (df : DataFrame) : DataFrame :=
  match history_length with
  | some n => if n ≠ 0 then { df with rows := lastN n df.rows } else df
  | none => df

/-- `Forecaster.fit`: group the history by the identifier column (sorted
unique keys), drop the identifier from each group, optionally truncate each
series to its most recent `history_length` rows, fit one model per entity,
and record the trained state.  The `np.random.seed(self.random_state)` call
mutates only ambient random state and has no observable effect here because
the regressor is a deterministic black box. -/
def Forecaster.fit (f : Forecaster) (history : DataFrame)
    (data_schema : ForecastingSchema) (history_length : Option Nat := none) :
    Except PyError Forecaster := do
  let all_ids ← history.groupKeys data_schema.id_col
  let all_series ← listMapM (fun i => do
    let g ← history.getGroup data_schema.id_col i
    pure (g.dropCol data_schema.id_col)) all_ids
  let models ← listMapM (fun is => do
    let series := truncateHistory history_length is.2
    let m ← f.fitOnSeries series data_schema
    pure (is.1, m)) (all_ids.zip all_series)
  pure { f with models := models, all_ids := all_ids,
                is_trained := true, data_schema := some data_schema }

/-- `Forecaster._predict_on_series`: select the exogenous columns of the
future frame, and when a model is registered for the key, forecast
`len(future_df)` steps and write them into the target column; otherwise
return `None`. -/
def Forecaster.predictOnSeries (f : Forecaster) (reg : Regressor)
    (data_schema : ForecastingSchema) (key : Cell) (future_df : DataFrame) :
    Except PyError (Option DataFrame) := do
  let exog ← exogFor data_schema future_df
  match f.models.lookup key with
  | some m => do
    let forecast ← faPredict reg m future_df.rows.length exog
    pure (some (future_df.assign data_schema.target forecast))
  | none => pure none

/-- The body of the list comprehension in `Forecaster.predict`:
`groups_by_ids.get_group(id_).drop(columns=id_col)` — pandas raises
`KeyError` when the trained id has no rows in the test data. -/
def Forecaster.seriesFor (sch : ForecastingSchema) (test_data : DataFrame)
    (i : Cell) : Except PyError DataFrame := do
  let g ← test_data.getGroup sch.id_col i
  pure (g.dropCol sch.id_col)

/-- The body of the forecasting loop in `Forecaster.predict`: forecast one
series, then `forecast.insert(0, id_col, id_)`; when `_predict_on_series`
returned `None`, the `.insert` attribute access raises `AttributeError`. -/
def Forecaster.forecastBlock (f : Forecaster) (reg : Regressor)
    (sch : ForecastingSchema) (is : Cell × DataFrame) : Except PyError DataFrame := do
  let fc? ← f.predictOnSeries reg sch is.1 is.2
  match fc? with
  | some fc => pure (fc.insertCol0 sch.id_col is.1)
  | none => throw PyError.attributeError

/-- `Forecaster.predict`: `NotFittedError` before training; group the test
data by the identifier column and take `get_group(id_)` for every
training-time id; forecast each series, re-attach the identifier column at
position 0, concatenate in training-id order, and rename the target column
to the requested prediction column name. -/
def Forecaster.predict (f : Forecaster) (reg : Regressor) (test_data : DataFrame)
    (prediction_col_name : String) : Except PyError DataFrame := do
  if !f.is_trained then throw PyError.notFittedError
  match f.data_schema with
  | none => throw PyError.attributeError
  | some sch => do
    let _ ← test_data.groupKeys sch.id_col
    let all_series ← listMapM (Forecaster.seriesFor sch test_data) f.all_ids
    let all_forecasts ← listMapM (f.forecastBlock reg sch) (f.all_ids.zip all_series)
    let out ← dfConcat all_forecasts
    pure (out.renameCol sch.target prediction_col_name)

/-- `Forecaster.save`: `NotFittedError` before training; otherwise
`joblib.dump(self, …)` serializes the whole object graph, embedded as the
blob being the forecaster value itself. -/
def Forecaster.save (f : Forecaster) : Except PyError Forecaster :=
  if !f.is_trained then .error .notFittedError else .ok f

/-- `Forecaster.load`: `joblib.load` restores the serialized object. -/
def Forecaster.load (blob : Forecaster) : Forecaster := blob

/-- A hyperparameter value as it may appear in the `hyperparameters` dict. -/
inductive HPVal where
  | nat (n : Nat)
  | str (s : String)
  | lag (l : LagSpec)
deriving DecidableEq, Repr

/-- Python truthiness of a hyperparameter value (`if history_forecast_ratio:`). -/
def HPVal.truthy : HPVal → Bool
  | .nat n => n != 0
  | .str s => s != ""
  | .lag (.upTo n) => n != 0
  | .lag (.explicit l) => !l.isEmpty

/-- The `hyperparameters` dict: association list with distinct keys. -/
abbrev HPDict := List (String × HPVal)

/-- `d.get(k)` on a dict. -/
def dictGet (d : HPDict) (k : String) : Option HPVal := d.lookup k

/-- `d.pop(k)`: remove the entry for `k` (dict keys are unique, so the first
matching entry is the only one). -/
def dictPop (d : HPDict) (k : String) : HPDict := d.eraseP (fun p => p.1 == k)

/-- A `Nat`-valued entry, falling back to the constructor default. -/
def getNatD (d : HPDict) (k : String) (dflt : Nat) : Nat :=
  match d.lookup k with
  | some (.nat n) => n
  | _ => dflt

/-- A string-valued entry, falling back to the constructor default. -/
def getStrD (d : HPDict) (k : String) (dflt : String) : String :=
  match d.lookup k with
  | some (.str s) => s
  | _ => dflt

/-- A lag-spec entry, falling back to the constructor default; a bare int is
the `upTo` form. -/
def getLagD (d : HPDict) (k : String) (dflt : LagSpec) : LagSpec :=
  match d.lookup k with
  | some (.lag l) => l
  | some (.nat n) => .upTo n
  | _ => dflt

/-- `Forecaster(**hyperparameters)`: each constructor argument is read from
the dict, absent keys take the Python defaults. -/
def forecasterFromDict (d : HPDict) : Forecaster :=
  { n_estimators := getNatD d "n_estimators" 50
    criterion := getStrD d "criterion" "squared_error"
    min_samples_split := getNatD d "min_samples_split" 2
    min_samples_leaf := getNatD d "min_samples_leaf" 1
    lags := getLagD d "lags" (.explicit [2, 5, 7])
    random_state := getNatD d "random_state" 0 }

/-- `train_predictor_model`: read the optional `history_forecast_ratio`
hyperparameter; when truthy, the history length is
`data_schema.forecast_length * history_forecast_ratio` with no rounding;
the key is popped from the caller's dict whenever present; then the
`Forecaster` is built from the remaining dict and fitted.  The mutated dict
is returned alongside the fit result to expose the in-place mutation. -/
def train_predictor_model (history : DataFrame) (data_schema : ForecastingSchema)
    (hyperparameters : HPDict) : Except PyError Forecaster × HPDict :=
  let hfRead := dictGet hyperparameters "history_forecast_ratio"
  let history_length : Option Nat :=
    match hfRead with
    | some v => if v.truthy then
                  match v with
                  | .nat n => some (data_schema.forecast_length * n)
                  | _ => none
                else none
    | none => none
  let d := if (dictGet hyperparameters "history_forecast_ratio").isSome then
             dictPop hyperparameters "history_forecast_ratio"
           else hyperparameters
  let model := forecasterFromDict d
  (model.fit history data_schema history_length, d)

/-- `predict_with_model`: delegates to `Forecaster.predict`. -/
def predict_with_model (model : Forecaster) (reg : Regressor)
    (test_data : DataFrame) (prediction_col_name : String) :
    Except PyError DataFrame :=
  model.predict reg test_data prediction_col_name

/-- `save_predictor_model`: delegates to `Forecaster.save` (directory
creation is file-system glue, out of scope). -/
def save_predictor_model (model : Forecaster) : Except PyError Forecaster :=
  model.save

/-- `load_predictor_model`: delegates to `Forecaster.load`. -/
def load_predictor_model (blob : Forecaster) : Forecaster :=
  Forecaster.load blob

/-- Number of rows of `df` whose `c`-column cell equals `k` (0 when the
column is absent). -/
def DataFrame.idCount (df : DataFrame) (c : String) (k : Cell) : Nat :=
  match df.colIdx? c with
  | some i => (df.rows.filter (fun r => r.getD i (.int 0) == k)).length
  | none => 0

/-! Concrete fixtures used by the concrete runs below. -/

/-- A trivial instantiation of the black-box regressor. -/
def regZero : Regressor := fun _ _ _ _ => .int 0

/-- Schema with no covariates, horizon 3. -/
def schemaNoCov : ForecastingSchema :=
  { id_col := "id", target := "t", future_covariates := [], forecast_length := 3 }

/-- A forecaster configured with the single lag 1. -/
def fcLag1 : Forecaster := { lags := .explicit [1] }

/-- A forecaster configured with the single lag 2. -/
def fcLag2 : Forecaster := { lags := .explicit [2] }

/-- Training history with entities A and B, two observations each. -/
def dfHistAB : DataFrame :=
  { cols := ["id", "t"]
    rows := [[.str "A", .int 1], [.str "A", .int 2],
             [.str "B", .int 3], [.str "B", .int 4]] }

/-- Training history with entity B only. -/
def dfHistB : DataFrame :=
  { cols := ["id", "t"], rows := [[.str "B", .int 3], [.str "B", .int 4]] }

/-- Prediction future table with entities B and C, three future rows each. -/
def dfTestBC : DataFrame :=
  { cols := ["id"]
    rows := [[.str "B"], [.str "B"], [.str "B"],
             [.str "C"], [.str "C"], [.str "C"]] }

/-- Prediction future table with entity B only, two future rows. -/
def dfTestBonly : DataFrame :=
  { cols := ["id"], rows := [[.str "B"], [.str "B"]] }

/-- Prediction future table with interleaved entities: three B rows and two
A rows. -/
def dfTestABmix : DataFrame :=
  { cols := ["id"]
    rows := [[.str "B"], [.str "A"], [.str "B"], [.str "A"], [.str "B"]] }

/-- History where A has 3 observations but B has only 2 (≤ max lag 2). -/
def dfHistAotherShort : DataFrame :=
  { cols := ["id", "t"]
    rows := [[.str "A", .int 1], [.str "A", .int 2], [.str "A", .int 3],
             [.str "B", .int 9], [.str "B", .int 8]] }

/-- History whose identifiers appear in encounter order B then A. -/
def dfHistBA : DataFrame :=
  { cols := ["id", "t"]
    rows := [[.str "B", .int 1], [.str "A", .int 7], [.str "B", .int 2],
             [.str "A", .int 8]] }

/-- Future table whose identifiers appear in encounter order B then A. -/
def dfTestBA : DataFrame :=
  { cols := ["id"], rows := [[.str "B"], [.str "A"]] }

/-- A table with the identifier column but zero rows. -/
def dfEmptyRows : DataFrame := { cols := ["id", "t"], rows := [] }

/-- A table with rows but no identifier column. -/
def dfNoIdCol : DataFrame := { cols := ["t"], rows := [[.int 1]] }

/-- The entity model `fit` produces for A's series of `dfHistAB`. -/
def faA : FittedFA :=
  { lags := [1], maxLag := 1, params := {}, trainX := [[.int 1]]
    trainYlab := [.int 2], lastWindow := [.int 2] }

/-- The entity model `fit` produces for B's series of `dfHistAB`. -/
def faB : FittedFA :=
  { lags := [1], maxLag := 1, params := {}, trainX := [[.int 3]]
    trainYlab := [.int 4], lastWindow := [.int 4] }

/-- The forecaster state after fitting `fcLag1` on `dfHistAB`. -/
def fcTrainedAB : Forecaster :=
  { fcLag1 with is_trained := true
                models := [(.str "A", faA), (.str "B", faB)]
                all_ids := [.str "A", .str "B"]
                data_schema := some schemaNoCov }

/-- The forecaster state after fitting `fcLag1` on `dfHistB`. -/
def fcTrainedB : Forecaster :=
  { fcLag1 with is_trained := true
                models := [(.str "B", faB)]
                all_ids := [.str "B"]
                data_schema := some schemaNoCov }

/-- A hyperparameters dict carrying only a lag spec. -/
def hpLag1 : HPDict := [("lags", .lag (.explicit [1]))]

/-- A hyperparameters dict with a history-to-horizon factor of 2 and a lag
spec. -/
def hpHF2 : HPDict := [("history_forecast_ratio", .nat 2), ("lags", .lag (.explicit [1]))]

/-! Helper lemmas about the embedding. -/

theorem ok_bind {α β : Type} {a : α} {k : α → Except PyError β} :
    (Except.ok a >>= k) = k a := rfl

theorem error_bind {α β : Type} {e : PyError} {k : α → Except PyError β} :
    ((Except.error e : Except PyError α) >>= k) = .error e := rfl

theorem pure_eq_ok {α : Type} {a : α} : (pure a : Except PyError α) = .ok a := rfl

theorem exceptBind_ok {α β : Type} {e : Except PyError α} {k : α → Except PyError β}
    {b : β} (h : (e >>= k) = .ok b) : ∃ a, e = .ok a ∧ k a = .ok b := by
  cases e with
  | error e2 => rw [error_bind] at h; exact absurd h (by simp)
  | ok a => exact ⟨a, rfl, by rwa [ok_bind] at h⟩

theorem listMapM_forall₂ {α β : Type} {g : α → Except PyError β} :
    ∀ {l : List α} {bs : List β}, listMapM g l = .ok bs →
      List.Forall₂ (fun a b => g a = .ok b) l bs := by
  intro l
  induction l with
  | nil =>
    intro bs h
    unfold listMapM at h
    cases h
    exact List.Forall₂.nil
  | cons a as ih =>
    intro bs h
    unfold listMapM at h
    obtain ⟨b, hb, h⟩ := exceptBind_ok h
    obtain ⟨bs2, hbs, h⟩ := exceptBind_ok h
    rw [pure_eq_ok] at h
    cases h
    exact List.Forall₂.cons hb (ih hbs)

theorem forall₂_sum_map {α β : Type} {R : α → β → Prop} (w1 : α → Nat) (w2 : β → Nat)
    (hw : ∀ a b, R a b → w2 b = w1 a) :
    ∀ {l1 : List α} {l2 : List β}, List.Forall₂ R l1 l2 →
      (l2.map w2).sum = (l1.map w1).sum := by
  intro l1 l2 h
  induction h with
  | nil => rfl
  | cons hab _ ih => simp [hw _ _ hab, ih]

theorem forall₂_zip_sum {α β : Type} {R : α → β → Prop} (w : α → Nat) (v : β → Nat)
    (hw : ∀ a b, R a b → v b = w a) :
    ∀ {l1 : List α} {l2 : List β}, List.Forall₂ R l1 l2 →
      ((l1.zip l2).map (fun p => v p.2)).sum = (l1.map w).sum := by
  intro l1 l2 h
  induction h with
  | nil => rfl
  | cons hab _ ih => simp [List.zip_cons_cons, hw _ _ hab, ih]

theorem forall₂_mem_left {α β : Type} {R : α → β → Prop} :
    ∀ {l1 : List α} {l2 : List β}, List.Forall₂ R l1 l2 → ∀ a ∈ l1, ∃ b, R a b := by
  intro l1 l2 h
  induction h with
  | nil => intro a ha; cases ha
  | cons hab _ ih =>
    intro a ha
    rcases List.mem_cons.mp ha with rfl | ha
    · exact ⟨_, hab⟩
    · exact ih a ha

theorem recForecast_length (reg : Regressor) (m : FittedFA) :
    ∀ (buffer : List Cell) (es : List (List Cell)),
      (recForecast reg m buffer es).length = es.length := by
  intro buffer es
  induction es generalizing buffer with
  | nil => rfl
  | cons e rest ih => simp [recForecast, ih]

theorem faPredict_ok_length {reg : Regressor} {m : FittedFA} {steps : Nat}
    {exog : Option (List (List Cell))} {ps : List Cell}
    (h : faPredict reg m steps exog = .ok ps) : ps.length = steps := by
  unfold faPredict at h
  split at h
  · split at h
    · exact absurd h (by simp)
    · next hlen =>
      injection h with h
      subst h
      rw [recForecast_length, List.length_take]
      omega
  · injection h with h
    subst h
    simp [recForecast_length]

theorem assign_rows_length (df : DataFrame) (c : String) (vs : List Cell) :
    (df.assign c vs).rows.length = min df.rows.length vs.length := by
  unfold DataFrame.assign
  split <;> simp

theorem dropCol_rows_length (df : DataFrame) (c : String) :
    (df.dropCol c).rows.length = df.rows.length := by
  unfold DataFrame.dropCol
  split <;> simp

theorem predictOnSeries_ok_some {f : Forecaster} {reg : Regressor}
    {sch : ForecastingSchema} {k : Cell} {fu fc : DataFrame}
    (h : f.predictOnSeries reg sch k fu = .ok (some fc)) :
    fc.rows.length = fu.rows.length := by
  unfold Forecaster.predictOnSeries at h
  obtain ⟨exog, hex, h⟩ := exceptBind_ok h
  cases hm : f.models.lookup k <;> simp only [hm] at h
  · replace h : (pure (none : Option DataFrame) : Except PyError (Option DataFrame)) =
        .ok (some fc) := h
    rw [pure_eq_ok] at h
    exact absurd h (by simp)
  · obtain ⟨ps, hps, h⟩ := exceptBind_ok h
    replace h : (pure (some (fu.assign sch.target ps)) :
        Except PyError (Option DataFrame)) = .ok (some fc) := h
    rw [pure_eq_ok] at h
    injection h with h
    injection h with h
    subst h
    rw [assign_rows_length, faPredict_ok_length hps]
    simp

theorem getGroup_ok {df : DataFrame} {c : String} {k : Cell} {g : DataFrame}
    (h : df.getGroup c k = .ok g) :
    ∃ i, df.colIdx? c = some i ∧
      g.rows = df.rows.filter (fun r => r.getD i (.int 0) == k) ∧
      g.rows ≠ [] ∧ g.cols = df.cols := by
  unfold DataFrame.getGroup at h
  cases hc : df.colIdx? c <;> simp only [hc] at h
  · exact absurd h (by simp)
  · next i =>
    split at h
    · exact absurd h (by simp)
    · next hne =>
      injection h with h
      subst h
      refine ⟨i, rfl, rfl, ?_, rfl⟩
      simpa [List.isEmpty_iff] using hne

theorem seriesFor_ok {sch : ForecastingSchema} {test : DataFrame} {i : Cell}
    {s : DataFrame} (h : Forecaster.seriesFor sch test i = .ok s) :
    s.rows.length = test.idCount sch.id_col i ∧ test.idCount sch.id_col i ≠ 0 := by
  unfold Forecaster.seriesFor at h
  obtain ⟨g, hg, h2⟩ := exceptBind_ok h
  obtain ⟨j, hc, hrows, hne, _⟩ := getGroup_ok hg
  rw [pure_eq_ok] at h2
  injection h2 with h2
  subst h2
  unfold DataFrame.idCount
  simp only [hc]
  rw [dropCol_rows_length, hrows]
  refine ⟨rfl, fun h0 => hne ?_⟩
  rw [hrows]
  exact List.length_eq_zero.mp h0

theorem forecastBlock_ok {f : Forecaster} {reg : Regressor} {sch : ForecastingSchema}
    {is : Cell × DataFrame} {b : DataFrame}
    (h : f.forecastBlock reg sch is = .ok b) :
    b.rows.length = is.2.rows.length := by
  unfold Forecaster.forecastBlock at h
  obtain ⟨fc?, h1, h2⟩ := exceptBind_ok h
  cases fc? with
  | none =>
    replace h2 : (Except.error PyError.attributeError : Except PyError DataFrame) =
        .ok b := h2
    exact absurd h2 (by simp)
  | some fc =>
    replace h2 : (pure (fc.insertCol0 sch.id_col is.1) : Except PyError DataFrame) =
        .ok b := h2
    rw [pure_eq_ok] at h2
    injection h2 with h2
    subst h2
    unfold DataFrame.insertCol0
    simpa using predictOnSeries_ok_some h1

theorem dfConcat_ok {ds : List DataFrame} {out : DataFrame}
    (h : dfConcat ds = .ok out) :
    out.rows.length = (ds.map (fun d => d.rows.length)).sum := by
  cases ds with
  | nil => exact absurd h (by simp [dfConcat])
  | cons d rest =>
    unfold dfConcat at h
    injection h with h
    subst h
    show ((d :: rest).foldr (fun x acc => x.rows ++ acc) []).length = _
    induction (d :: rest) with
    | nil => rfl
    | cons x xs ih => simp [ih]

theorem notNF_pure {α : Type} (a : α) :
    ∀ e, (pure a : Except PyError α) = .error e → e ≠ .notFittedError := by
  intro e h
  exact absurd h (by simp [pure_eq_ok])

theorem notNF_bind {α β : Type} {x : Except PyError α} {k : α → Except PyError β}
    (hx : ∀ e, x = .error e → e ≠ .notFittedError)
    (hk : ∀ a e, k a = .error e → e ≠ .notFittedError) :
    ∀ e, (x >>= k) = .error e → e ≠ .notFittedError := by
  intro e h
  cases x with
  | error e2 =>
    rw [error_bind] at h
    injection h with h
    subst h
    exact hx _ rfl
  | ok a =>
    rw [ok_bind] at h
    exact hk a e h

theorem notNF_listMapM {α β : Type} {g : α → Except PyError β}
    (hg : ∀ a e, g a = .error e → e ≠ .notFittedError) :
    ∀ (l : List α) (e : PyError), listMapM g l = .error e → e ≠ .notFittedError := by
  intro l
  induction l with
  | nil =>
    intro e h
    exact absurd h (by simp [listMapM])
  | cons a as ih =>
    intro e h
    unfold listMapM at h
    exact notNF_bind (hg a) (fun b => notNF_bind ih (fun bs => notNF_pure _)) e h

theorem notNF_groupKeys (df : DataFrame) (c : String) :
    ∀ e, df.groupKeys c = .error e → e ≠ .notFittedError := by
  intro e h
  unfold DataFrame.groupKeys at h
  cases hc : df.colIdx? c <;> simp only [hc] at h
  · injection h with h
    subst h
    simp
  · exact absurd h (by simp)

theorem notNF_getGroup (df : DataFrame) (c : String) (k : Cell) :
    ∀ e, df.getGroup c k = .error e → e ≠ .notFittedError := by
  intro e h
  unfold DataFrame.getGroup at h
  cases hc : df.colIdx? c <;> simp only [hc] at h
  · injection h with h
    subst h
    simp
  · split at h
    · injection h with h
      subst h
      simp
    · exact absurd h (by simp)

theorem notNF_select (df : DataFrame) (cs : List String) :
    ∀ e, df.select cs = .error e → e ≠ .notFittedError := by
  intro e h
  unfold DataFrame.select at h
  refine notNF_bind (notNF_listMapM ?_ cs) (fun idxs => notNF_pure _) e h
  intro a e2 h2
  cases hc : df.colIdx? a <;> simp only [hc] at h2
  · injection h2 with h2
    subst h2
    simp
  · exact absurd h2 (by simp)

theorem notNF_exogFor (sch : ForecastingSchema) (df : DataFrame) :
    ∀ e, exogFor sch df = .error e → e ≠ .notFittedError := by
  intro e h
  unfold exogFor at h
  split at h
  · exact notNF_pure _ e h
  · exact notNF_bind (notNF_select df _) (fun a => notNF_pure _) e h

theorem notNF_faPredict (reg : Regressor) (m : FittedFA) (steps : Nat)
    (exog : Option (List (List Cell))) :
    ∀ e, faPredict reg m steps exog = .error e → e ≠ .notFittedError := by
  intro e h
  unfold faPredict at h
  split at h
  · split at h
    · injection h with h
      subst h
      simp
    · exact absurd h (by simp)
  · exact absurd h (by simp)

theorem notNF_predictOnSeries (f : Forecaster) (reg : Regressor)
    (sch : ForecastingSchema) (k : Cell) (fu : DataFrame) :
    ∀ e, f.predictOnSeries reg sch k fu = .error e → e ≠ .notFittedError := by
  intro e h
  unfold Forecaster.predictOnSeries at h
  refine notNF_bind (notNF_exogFor sch fu) ?_ e h
  intro exog e2 h2
  cases hm : f.models.lookup k <;> simp only [hm] at h2
  · exact notNF_pure _ e2 h2
  · exact notNF_bind (notNF_faPredict reg _ fu.rows.length exog)
      (fun ps => notNF_pure _) e2 h2

theorem notNF_seriesFor (sch : ForecastingSchema) (test : DataFrame) (i : Cell) :
    ∀ e, Forecaster.seriesFor sch test i = .error e → e ≠ .notFittedError := by
  intro e h
  unfold Forecaster.seriesFor at h
  exact notNF_bind (notNF_getGroup test sch.id_col i) (fun g => notNF_pure _) e h

theorem notNF_forecastBlock (f : Forecaster) (reg : Regressor)
    (sch : ForecastingSchema) (is : Cell × DataFrame) :
    ∀ e, f.forecastBlock reg sch is = .error e → e ≠ .notFittedError := by
  intro e h
  unfold Forecaster.forecastBlock at h
  refine notNF_bind (notNF_predictOnSeries f reg sch is.1 is.2) ?_ e h
  intro fc? e2 h2
  cases fc? with
  | none =>
    replace h2 : (Except.error PyError.attributeError : Except PyError DataFrame) =
        .error e2 := h2
    injection h2 with h2
    subst h2
    simp
  | some fc =>
    exact notNF_pure _ e2 h2

theorem notNF_dfConcat (ds : List DataFrame) :
    ∀ e, dfConcat ds = .error e → e ≠ .notFittedError := by
  intro e h
  cases ds with
  | nil =>
    unfold dfConcat at h
    injection h with h
    subst h
    simp
  | cons d rest =>
    unfold dfConcat at h
    exact absurd h (by simp)

theorem lookup_cons (k a : String) (v : HPVal) (rest : HPDict) :
    List.lookup k ((a, v) :: rest) = if k = a then some v else rest.lookup k := by
  by_cases h : k = a
  · subst h
    simp only [List.lookup, beq_self_eq_true, if_true]
  · simp only [List.lookup]
    rw [show (k == a) = false from by simpa using h]
    simp [h]

theorem dictPop_cons (key a : String) (v : HPVal) (rest : HPDict) :
    dictPop ((a, v) :: rest) key = if a = key then rest else (a, v) :: dictPop rest key := by
  by_cases h : a = key
  · subst h
    simp only [dictPop, List.eraseP_cons, beq_self_eq_true, cond_true, if_true]
  · simp only [dictPop, List.eraseP_cons]
    rw [show ((a, v).1 == key) = false from by simpa using h]
    simp [h]

theorem lookup_eq_none_of_not_mem (k : String) :
    ∀ d : HPDict, k ∉ d.map Prod.fst → d.lookup k = none := by
  intro d
  induction d with
  | nil => intro _; rfl
  | cons p rest ih =>
    intro hk
    obtain ⟨a, v⟩ := p
    rw [List.map_cons, List.mem_cons] at hk
    push_neg at hk
    obtain ⟨h1, h2⟩ := hk
    rw [lookup_cons]
    simp only [h1, if_false]
    exact ih h2

theorem lookup_dictPop_ne (key k : String) (hne : k ≠ key) :
    ∀ d : HPDict, (dictPop d key).lookup k = d.lookup k := by
  intro d
  induction d with
  | nil => rfl
  | cons p rest ih =>
    obtain ⟨a, v⟩ := p
    rw [dictPop_cons, lookup_cons]
    by_cases ha : a = key
    · subst ha
      simp only [if_true]
      have hka : k ≠ a := hne
      simp only [hka, if_false]
    · simp only [ha, if_false]
      rw [lookup_cons]
      by_cases hka : k = a
      · simp [hka]
      · simp only [hka, if_false]
        exact ih

theorem lookup_dictPop_self (key : String) :
    ∀ d : HPDict, (d.map Prod.fst).Nodup → (dictPop d key).lookup key = none := by
  intro d
  induction d with
  | nil => intro _; rfl
  | cons p rest ih =>
    intro hnd
    obtain ⟨a, v⟩ := p
    rw [List.map_cons, List.nodup_cons] at hnd
    obtain ⟨hmem, hnd2⟩ := hnd
    rw [dictPop_cons]
    by_cases ha : a = key
    · subst ha
      simp only [if_true]
      exact lookup_eq_none_of_not_mem a rest hmem
    · simp only [ha, if_false]
      rw [lookup_cons]
      have hka : key ≠ a := fun h => ha h.symm
      simp only [hka, if_false]
      exact ih hnd2

theorem dictPop_absent (key : String) :
    ∀ d : HPDict, d.lookup key = none → dictPop d key = d := by
  intro d
  induction d with
  | nil => intro _; rfl
  | cons p rest ih =>
    intro h
    obtain ⟨a, v⟩ := p
    rw [lookup_cons] at h
    rw [dictPop_cons]
    by_cases ha : key = a
    · simp only [ha, if_true] at h
      exact absurd h (by simp)
    · have hak : ¬a = key := fun hh => ha hh.symm
      simp only [ha, if_false] at h
      simp only [hak, if_false]
      rw [ih h]

/-! Claim theorems. -/

/-- C1 counterexample: with a model trained on entities A and B and a
prediction input containing exactly B and C (3 future rows each), `predict`
does not return B's 3 rows — it raises `KeyError("A")`, because the loop
iterates the training-time ids and `get_group` fails for A, which has no
rows in the input. -/
theorem C1_absent_entity_counterexample :
    (fcLag1.fit dfHistAB schemaNoCov none).bind
        (fun f => f.predict regZero dfTestBC "prediction") =
      Except.error (PyError.keyError "A") := rfl

/-- C1 amended: an entity absent from the registry (C) is silently excluded
from the combined output — no placeholder rows, no error caused by it — but
an entity in the registry that is absent from the input (A) makes `predict`
fail with `KeyError("A")`.  With a model trained on {A,B} and input {B,C}
the call therefore fails; with a model trained on {B} alone, the same input
yields exactly B's 3 rows and C contributes none. -/
theorem C1_absent_entity_amended :
    ((fcLag1.fit dfHistAB schemaNoCov none).bind
        (fun f => f.predict regZero dfTestBC "prediction") =
      Except.error (PyError.keyError "A"))
    ∧ ((fcLag1.fit dfHistB schemaNoCov none).bind
        (fun f => f.predict regZero dfTestBC "prediction") =
      Except.ok { cols := ["id", "prediction"]
                  rows := [[.str "B", .int 0], [.str "B", .int 0], [.str "B", .int 0]] }) :=
  ⟨rfl, rfl⟩

/-- C2 counterexample: training on a table with zero rows does not fail — no
error of any kind is raised; `fit` returns a trained forecaster whose
registry is empty. -/
theorem C2_empty_history_counterexample :
    fcLag1.fit dfEmptyRows schemaNoCov none =
      Except.ok { fcLag1 with
                  models := [], all_ids := [],
                  is_trained := true, data_schema := some schemaNoCov } := rfl

/-- C2 amended: there is no `EmptyHistoryError` anywhere in the code.  A
history with the identifier column present and zero rows trains
successfully, producing a trained forecaster with an empty registry; a
history whose identifier column is absent fails with the pandas
`KeyError` naming that column (raised by `groupby`). -/
theorem C2_empty_history_amended (f : Forecaster) (df : DataFrame)
    (sch : ForecastingSchema) (hl : Option Nat)
    (hid : (df.colIdx? sch.id_col).isSome = true) (hrows : df.rows = []) :
    (f.fit df sch hl =
      Except.ok { f with
                  models := [], all_ids := [],
                  is_trained := true, data_schema := some sch })
    ∧ (∀ df2 : DataFrame, df2.colIdx? sch.id_col = none →
        f.fit df2 sch hl = Except.error (.keyError sch.id_col)) := by
  constructor
  · obtain ⟨i, hi⟩ := Option.isSome_iff_exists.mp hid
    have hk : df.groupKeys sch.id_col = .ok [] := by
      unfold DataFrame.groupKeys
      simp [hi, hrows, List.insertionSort]
    unfold Forecaster.fit
    rw [hk]
    rfl
  · intro df2 h2
    have hk : df2.groupKeys sch.id_col = .error (.keyError sch.id_col) := by
      unfold DataFrame.groupKeys
      simp [h2]
    unfold Forecaster.fit
    rw [hk]
    rfl

/-- C2 witness: the amended theorem applied to the concrete zero-row table. -/
theorem C2_empty_history_witness :
    fcLag1.fit dfEmptyRows schemaNoCov none =
      Except.ok { fcLag1 with
                  models := [], all_ids := [],
                  is_trained := true, data_schema := some schemaNoCov } :=
  (C2_empty_history_amended fcLag1 dfEmptyRows schemaNoCov none rfl rfl).1

/-- C3 counterexample: with lags {2}, entity A has 3 observations but B has
only 2 (≤ max lag).  The whole training call aborts with the library
`ValueError` — no `InsufficientHistoryError` exists, and A's model is not
produced either, contradicting the claim that only the failing entity's fit
is aborted. -/
theorem C3_insufficient_history_counterexample :
    fcLag2.fit dfHistAotherShort schemaNoCov none =
      Except.error
        (.valueError "the maximum lag must be less than the length of the series") := rfl

/-- C3 amended: an entity whose usable history length is at most `max(lag)`
makes the per-series fit fail with the skforecast `ValueError` (not an
`InsufficientHistoryError`), and because `fit` has no per-entity error
handling this aborts the whole training run — no other entity's model is
produced.  A series of length exactly `max(lag)+1` fits without error and
its design matrix has exactly one usable row. -/
theorem C3_insufficient_history_amended (lags : List Nat) (params : RFParams)
    (y : List Cell) (exog : Option (List (List Cell)))
    (hne : lags ≠ []) (hpos : ∀ l ∈ lags, l ≠ 0)
    (hex : ∀ e2, exog = some e2 → e2.length = y.length) :
    (y.length ≤ lags.foldr max 0 →
      faFit lags params y exog =
        Except.error
          (.valueError "the maximum lag must be less than the length of the series"))
    ∧ (y.length = lags.foldr max 0 + 1 →
      ∃ m, faFit lags params y exog = Except.ok m ∧ m.trainX.length = 1)
    ∧ fcLag2.fit dfHistAotherShort schemaNoCov none =
        Except.error
          (.valueError "the maximum lag must be less than the length of the series") := by
  have hcond : (lags.isEmpty || lags.any (· == 0)) = false := by
    rw [Bool.or_eq_false_iff]
    constructor
    · simpa [List.isEmpty_iff] using hne
    · rw [List.any_eq_false]
      intro l hl
      simpa using hpos l hl
  refine ⟨?_, ?_, rfl⟩
  · intro hshort
    unfold faFit
    rw [hcond]
    simp only [Bool.false_eq_true, if_false]
    rw [if_pos hshort]
  · intro hlen
    unfold faFit
    rw [hcond]
    simp only [Bool.false_eq_true, if_false]
    rw [if_neg (by omega)]
    have hbad : faFit.exogLenBad exog y.length = false := by
      cases exog with
      | none => rfl
      | some e2 => simp [faFit.exogLenBad, hex e2 rfl]
    rw [if_neg (by simp [hbad])]
    refine ⟨_, rfl, ?_⟩
    simp [List.length_range']
    omega

/-- C3 witness: the amended theorem applied with lags {2} to a two-element
series (length = max lag), which errors, discharging the short-history
branch. -/
theorem C3_insufficient_history_witness :
    faFit [2] {} [Cell.int 1, Cell.int 2] none =
      Except.error
        (.valueError "the maximum lag must be less than the length of the series") :=
  (C3_insufficient_history_amended [2] {} [Cell.int 1, Cell.int 2] none
      (by decide) (by decide) (fun e2 h => by cases h)).1 (by decide)

/-- C5 counterexample: partitioning a history whose identifiers appear in
encounter order B then A yields training-time ids [A, B] (pandas groupby
sorts its keys), not the first-encountered order [B, A]. -/
theorem C5_partition_order_counterexample :
    ((fcLag1.fit dfHistBA schemaNoCov none).map Forecaster.all_ids =
      Except.ok [Cell.str "A", Cell.str "B"])
    ∧ [Cell.str "A", Cell.str "B"] ≠ [Cell.str "B", Cell.str "A"] :=
  ⟨rfl, by decide⟩

/-- C5 amended: partitioning produces per-entity sub-tables keyed by the
distinct identifiers in ascending sorted order (pandas groupby default), not
first-encounter order; each entity's own rows keep their original relative
order (the group is a sublist of the input rows); and the combined forecast
output concatenates per-entity results in that sorted training-time order —
concretely, a model trained on encounter order [B, A] emits A's forecast
rows before B's. -/
theorem C5_partition_order_amended :
    (∀ (df : DataFrame) (c : String) (ks : List Cell),
      df.groupKeys c = Except.ok ks → ks.Sorted (· ≤ ·))
    ∧ (∀ (df : DataFrame) (c : String) (k : Cell) (g : DataFrame),
      df.getGroup c k = Except.ok g → g.rows.Sublist df.rows)
    ∧ ((fcLag1.fit dfHistBA schemaNoCov none).bind
        (fun f => f.predict regZero dfTestBA "p") =
      Except.ok { cols := ["id", "p"]
                  rows := [[.str "A", .int 0], [.str "B", .int 0]] }) := by
  refine ⟨?_, ?_, rfl⟩
  · intro df c ks h
    unfold DataFrame.groupKeys at h
    cases hc : df.colIdx? c <;> simp only [hc] at h
    · exact absurd h (by simp)
    · injection h with h
      subst h
      exact List.sorted_insertionSort _ _
  · intro df c k g h
    obtain ⟨i, _, hrows, _, _⟩ := getGroup_ok h
    rw [hrows]
    exact List.filter_sublist df.rows

/-- C5 witness: the amended theorem's sortedness part applied to the
concrete history with encounter order B then A. -/
theorem C5_partition_order_witness :
    List.Sorted (· ≤ ·) [Cell.str "A", Cell.str "B"] :=
  C5_partition_order_amended.1 dfHistBA "id" [Cell.str "A", Cell.str "B"] rfl

/-- C6: `predict` and `save` both raise `NotFittedError` on a forecaster
that has not been trained; after a successful `fit`, `save` succeeds and
`predict` can never fail with `NotFittedError` (any failure it may still
have is a different error, such as a `KeyError` for a missing entity). -/
theorem C6_not_fitted (f : Forecaster) (reg : Regressor) (test : DataFrame)
    (pcol : String) (df : DataFrame) (sch : ForecastingSchema) (hl : Option Nat) :
    (f.is_trained = false →
      f.predict reg test pcol = .error .notFittedError
      ∧ f.save = .error .notFittedError)
    ∧ (∀ f2 : Forecaster, f.fit df sch hl = Except.ok f2 →
      f2.save = Except.ok f2
      ∧ ∀ e, f2.predict reg test pcol = .error e → e ≠ .notFittedError) := by
  constructor
  · intro hf
    constructor
    · unfold Forecaster.predict
      rw [hf]
      rfl
    · unfold Forecaster.save
      rw [hf]
      rfl
  · intro f2 hfit
    unfold Forecaster.fit at hfit
    obtain ⟨ids, h1, hfit⟩ := exceptBind_ok hfit
    obtain ⟨sers, h2, hfit⟩ := exceptBind_ok hfit
    obtain ⟨ms, h3, hfit⟩ := exceptBind_ok hfit
    rw [pure_eq_ok] at hfit
    injection hfit with hfit
    subst hfit
    constructor
    · unfold Forecaster.save
      rfl
    · intro e h
      unfold Forecaster.predict at h
      replace h : (match (some sch : Option ForecastingSchema) with
          | none => (throw PyError.attributeError : Except PyError DataFrame)
          | some sch => do
            let _ ← test.groupKeys sch.id_col
            let all_series ← listMapM (Forecaster.seriesFor sch test)
              ({ f with
                 models := ms, all_ids := ids,
                 is_trained := true, data_schema := some sch } : Forecaster).all_ids
            let all_forecasts ←
              listMapM (Forecaster.forecastBlock { f with
                  models := ms, all_ids := ids,
                  is_trained := true, data_schema := some sch } reg sch)
                (({ f with
                    models := ms, all_ids := ids,
                    is_trained := true, data_schema := some sch } : Forecaster).all_ids.zip
                  all_series)
            let out ← dfConcat all_forecasts
            pure (out.renameCol sch.target pcol)) = .error e := h
      refine notNF_bind (notNF_groupKeys test sch.id_col) ?_ e h
      intro ks e2 h2
      refine notNF_bind (notNF_listMapM (fun i => notNF_seriesFor sch test i) _) ?_ e2 h2
      intro sers2 e3 h3
      refine notNF_bind (notNF_listMapM (fun p => notNF_forecastBlock _ reg sch p) _) ?_ e3 h3
      intro blocks e4 h4
      exact notNF_bind (notNF_dfConcat blocks) (fun out => notNF_pure _) e4 h4

/-- C6 witness: the untrained default forecaster raises `NotFittedError`
from both `predict` and `save`, and after fitting on B's history `save`
succeeds. -/
theorem C6_not_fitted_witness :
    (fcLag1.predict regZero dfTestBC "p" = .error .notFittedError
      ∧ fcLag1.save = .error .notFittedError)
    ∧ fcTrainedB.save = Except.ok fcTrainedB :=
  ⟨(C6_not_fitted fcLag1 regZero dfTestBC "p" dfHistB schemaNoCov none).1 rfl,
   ((C6_not_fitted fcLag1 regZero dfTestBC "p" dfHistB schemaNoCov none).2
      fcTrainedB rfl).1⟩

/-- C7: round-trip through persistence — when `save` succeeds (the model is
trained), loading the saved blob yields a forecaster whose predictions on
any future frame are identical to the original model's. -/
theorem C7_save_load_roundtrip (f : Forecaster) (reg : Regressor)
    (test : DataFrame) (pcol : String) (blob : Forecaster)
    (h : f.save = Except.ok blob) :
    (Forecaster.load blob).predict reg test pcol = f.predict reg test pcol := by
  unfold Forecaster.save at h
  split at h
  · exact absurd h (by simp)
  · injection h with h
    subst h
    rfl

/-- C7 witness: the round-trip theorem applied to the concrete trained
forecaster. -/
theorem C7_save_load_roundtrip_witness :
    (Forecaster.load fcTrainedB).predict regZero dfTestBC "p" =
      fcTrainedB.predict regZero dfTestBC "p" :=
  C7_save_load_roundtrip fcTrainedB regZero dfTestBC "p" fcTrainedB rfl

/-- C8: determinism — two training runs given the identical history table,
identical schema and identical hyperparameters dict (which carries the
random seed) produce models whose forecasts on any identical future frame
are identical.  The embedding makes the seed an explicit input and the
regressor a deterministic function, which is exactly what fixing
`random_state` and re-seeding `np.random` achieves in the code. -/
theorem C8_determinism (history : DataFrame) (sch : ForecastingSchema)
    (hp : HPDict) (m1 m2 : Forecaster) (d1 d2 : HPDict) (reg : Regressor)
    (test : DataFrame) (pcol : String)
    (h1 : train_predictor_model history sch hp = (Except.ok m1, d1))
    (h2 : train_predictor_model history sch hp = (Except.ok m2, d2)) :
    m1.predict reg test pcol = m2.predict reg test pcol := by
  rw [h1] at h2
  injection h2 with ha hb
  injection ha with ha
  subst ha
  rfl

/-- C8 witness: the determinism theorem applied to the concrete training
run on the two-entity history. -/
theorem C8_determinism_witness :
    fcTrainedAB.predict regZero dfTestBC "p" = fcTrainedAB.predict regZero dfTestBC "p" :=
  C8_determinism dfHistAB schemaNoCov hpLag1 fcTrainedAB fcTrainedAB hpLag1 hpLag1
    regZero dfTestBC "p" rfl rfl

/-- C9: when the dict carries a (nonzero) history-to-horizon factor r, the
recency window passed to `fit` is exactly `forecast_length * r` — a bare
product, no rounding rule — and the key is popped before the forecaster is
built; `fit` truncates each entity's series to its most recent
window-many rows before the lag matrix is built (that is what
`truncateHistory` applied inside `fit` before `fitOnSeries` does), while
with no such key the history length is `none` and every series is used in
full. -/
theorem C9_recency_window (history : DataFrame) (sch : ForecastingSchema)
    (hp : HPDict) (r : Nat)
    (hr : dictGet hp "history_forecast_ratio" = some (.nat r)) (hr0 : r ≠ 0) :
    (train_predictor_model history sch hp =
      ((forecasterFromDict (dictPop hp "history_forecast_ratio")).fit history sch
          (some (sch.forecast_length * r)),
        dictPop hp "history_forecast_ratio"))
    ∧ (∀ (n : Nat) (df : DataFrame), n ≠ 0 →
        truncateHistory (some n) df = { df with rows := lastN n df.rows })
    ∧ (∀ df : DataFrame, truncateHistory none df = df)
    ∧ (∀ hp2 : HPDict, dictGet hp2 "history_forecast_ratio" = none →
        train_predictor_model history sch hp2 =
          ((forecasterFromDict hp2).fit history sch none, hp2)) := by
  refine ⟨?_, ?_, fun df => rfl, ?_⟩
  · unfold train_predictor_model
    rw [hr]
    simp only [HPVal.truthy, ne_eq, Option.isSome_some, if_true]
    rw [if_pos (by simpa using hr0)]
  · intro n df hn
    show (if n ≠ 0 then { df with rows := lastN n df.rows } else df) =
      { df with rows := lastN n df.rows }
    rw [if_pos hn]
  · intro hp2 h2
    unfold train_predictor_model
    rw [h2]
    simp only [Option.isSome_none, Bool.false_eq_true, if_false]

/-- C9 witness: the window theorem applied to the concrete dict with factor
2, and the truncation equation at the concrete window 6. -/
theorem C9_recency_window_witness :
    (train_predictor_model dfHistAB schemaNoCov hpHF2 =
      ((forecasterFromDict (dictPop hpHF2 "history_forecast_ratio")).fit dfHistAB
          schemaNoCov (some (schemaNoCov.forecast_length * 2)),
        dictPop hpHF2 "history_forecast_ratio"))
    ∧ truncateHistory (some 6) dfHistAB = { dfHistAB with rows := lastN 6 dfHistAB.rows } :=
  ⟨(C9_recency_window dfHistAB schemaNoCov hpHF2 2 rfl (by decide)).1,
   (C9_recency_window dfHistAB schemaNoCov hpHF2 2 rfl (by decide)).2.1 6 dfHistAB
     (by decide)⟩

/-- C10: `train_predictor_model` mutates its hyperparameters dict exactly by
removing the `history_forecast_ratio` key when it is present (dict keys are
unique, hence the Nodup hypothesis): afterwards the key is gone, every other
key's value is unchanged, and when the key was absent the dict is returned
untouched. -/
theorem C10_dict_mutation (history : DataFrame) (sch : ForecastingSchema)
    (hp : HPDict) (hnd : (hp.map Prod.fst).Nodup) :
    ((dictGet hp "history_forecast_ratio").isSome = true →
      dictGet (train_predictor_model history sch hp).2 "history_forecast_ratio" = none)
    ∧ (∀ k, k ≠ "history_forecast_ratio" →
      dictGet (train_predictor_model history sch hp).2 k = dictGet hp k)
    ∧ (dictGet hp "history_forecast_ratio" = none →
      (train_predictor_model history sch hp).2 = hp) := by
  have hsnd : (train_predictor_model history sch hp).2 =
      if (dictGet hp "history_forecast_ratio").isSome then
        dictPop hp "history_forecast_ratio"
      else hp := by
    unfold train_predictor_model
    rfl
  refine ⟨?_, ?_, ?_⟩
  · intro hpresent
    rw [hsnd, if_pos hpresent]
    exact lookup_dictPop_self "history_forecast_ratio" hp hnd
  · intro k hk
    rw [hsnd]
    by_cases hpresent : (dictGet hp "history_forecast_ratio").isSome
    · rw [if_pos hpresent]
      exact lookup_dictPop_ne "history_forecast_ratio" k hk hp
    · rw [if_neg hpresent]
  · intro habsent
    rw [hsnd, habsent]
    rfl

/-- C10 witness: the mutation theorem applied to the concrete dict carrying
the factor key: the key is removed and the lag key is untouched. -/
theorem C10_dict_mutation_witness :
    dictGet (train_predictor_model dfHistAB schemaNoCov hpHF2).2
        "history_forecast_ratio" = none
    ∧ dictGet (train_predictor_model dfHistAB schemaNoCov hpHF2).2 "lags" =
        dictGet hpHF2 "lags" :=
  ⟨(C10_dict_mutation dfHistAB schemaNoCov hpHF2 (by decide)).1 rfl,
   (C10_dict_mutation dfHistAB schemaNoCov hpHF2 (by decide)).2.1 "lags" (by decide)⟩

theorem dfConcat_ok_rows {ds : List DataFrame} {out : DataFrame}
    (h : dfConcat ds = .ok out) :
    out.rows = ds.foldr (fun b acc => b.rows ++ acc) [] := by
  cases ds with
  | nil => exact absurd h (by simp [dfConcat])
  | cons d rest =>
    unfold dfConcat at h
    injection h with h
    subst h
    rfl

theorem predictOnSeries_ok_some_eq {f : Forecaster} {reg : Regressor}
    {sch : ForecastingSchema} {k : Cell} {fu fc : DataFrame}
    (h : f.predictOnSeries reg sch k fu = .ok (some fc)) :
    ∃ ps : List Cell, ps.length = fu.rows.length ∧ fc = fu.assign sch.target ps := by
  unfold Forecaster.predictOnSeries at h
  obtain ⟨exog, hex, h⟩ := exceptBind_ok h
  cases hm : f.models.lookup k <;> simp only [hm] at h
  · replace h : (pure (none : Option DataFrame) : Except PyError (Option DataFrame)) =
        .ok (some fc) := h
    rw [pure_eq_ok] at h
    exact absurd h (by simp)
  · obtain ⟨ps, hps, h⟩ := exceptBind_ok h
    replace h : (pure (some (fu.assign sch.target ps)) :
        Except PyError (Option DataFrame)) = .ok (some fc) := h
    rw [pure_eq_ok] at h
    injection h with h
    injection h with h
    exact ⟨ps, faPredict_ok_length hps, h.symm⟩

theorem forecastBlock_ok_eq {f : Forecaster} {reg : Regressor}
    {sch : ForecastingSchema} {is : Cell × DataFrame} {b : DataFrame}
    (h : f.forecastBlock reg sch is = .ok b) :
    ∃ fc : DataFrame, f.predictOnSeries reg sch is.1 is.2 = .ok (some fc)
      ∧ b = fc.insertCol0 sch.id_col is.1 := by
  unfold Forecaster.forecastBlock at h
  obtain ⟨fc?, h1, h2⟩ := exceptBind_ok h
  cases fc? with
  | none =>
    replace h2 : (Except.error PyError.attributeError : Except PyError DataFrame) =
        .ok b := h2
    exact absurd h2 (by simp)
  | some fc =>
    replace h2 : (pure (fc.insertCol0 sch.id_col is.1) : Except PyError DataFrame) =
        .ok b := h2
    rw [pure_eq_ok] at h2
    injection h2 with h2
    exact ⟨fc, h1, h2.symm⟩

theorem forall₂_zip_combine {α β γ : Type} {R1 : α → β → Prop}
    {R2 : α × β → γ → Prop} :
    ∀ {l1 : List α} {l2 : List β} {l3 : List γ},
      List.Forall₂ R1 l1 l2 → List.Forall₂ R2 (l1.zip l2) l3 →
      List.Forall₂ (fun a c => ∃ b, R1 a b ∧ R2 (a, b) c) l1 l3 := by
  intro l1 l2 l3 h1
  induction h1 generalizing l3 with
  | nil =>
    intro h2
    cases h2
    exact List.Forall₂.nil
  | cons hab htail ih =>
    intro h2
    rw [List.zip_cons_cons] at h2
    cases h2 with
    | cons hc h2tail => exact List.Forall₂.cons ⟨_, hab, hc⟩ (ih h2tail)

/-- C4 counterexample: with a model trained on {A,B} and a prediction input
containing only B (2 future rows), the claim's formula gives a combined
output of 2 rows (the sum over entities present in both registry and
input), but `predict` returns no output at all — it raises `KeyError("A")`
for the registry entity missing from the input. -/
theorem C4_row_count_counterexample :
    (fcLag1.fit dfHistAB schemaNoCov none).bind
        (fun f => f.predict regZero dfTestBonly "prediction") =
      Except.error (PyError.keyError "A") := rfl

/-- C4 amended: whenever `predict` succeeds, every training-time entity has
at least one row in the input (a registry entity absent from the input makes
the call fail with `KeyError` instead of contributing zero rows), each
entity contributes exactly as many output rows as it has input rows — one
prediction per future row, in input row order — and the combined output row
count is the sum of those per-entity input row counts over the registry ids.
The per-entity structure is stated exactly: the output rows are the
concatenation, in registry-id order, of one block per id, and the block for
id `k` is `k`'s future frame (its input rows in original order, via
`seriesFor`) with the prediction column assigned row-by-row (`assign` is a
positional zip, so row `i` of the block is input row `i` of `k` with its
prediction) and the identifier re-attached at position 0. -/
theorem C4_row_count_amended (f : Forecaster) (reg : Regressor)
    (test : DataFrame) (pcol : String) (out : DataFrame)
    (sch : ForecastingSchema) (hs : f.data_schema = some sch)
    (hp : f.predict reg test pcol = Except.ok out) :
    out.rows.length = (f.all_ids.map (fun k => test.idCount sch.id_col k)).sum
    ∧ (∀ k ∈ f.all_ids, test.idCount sch.id_col k ≠ 0)
    ∧ ∃ blocks : List DataFrame,
        out.rows = blocks.foldr (fun b acc => b.rows ++ acc) []
        ∧ List.Forall₂ (fun k b =>
            b.rows.length = test.idCount sch.id_col k
            ∧ ∃ s ps, Forecaster.seriesFor sch test k = Except.ok s
                ∧ ps.length = s.rows.length
                ∧ b = (s.assign sch.target ps).insertCol0 sch.id_col k)
          f.all_ids blocks := by
  unfold Forecaster.predict at hp
  cases ht : f.is_trained <;> rw [ht] at hp
  · replace hp : (Except.error PyError.notFittedError : Except PyError DataFrame) =
        Except.ok out := hp
    exact absurd hp (by simp)
  · rw [hs] at hp
    obtain ⟨u, hu, hp⟩ := exceptBind_ok hp
    obtain ⟨ks, h0, hp⟩ := exceptBind_ok hp
    obtain ⟨sers, h1, hp⟩ := exceptBind_ok hp
    obtain ⟨blocks, h2, hp⟩ := exceptBind_ok hp
    obtain ⟨cat, h3, hp⟩ := exceptBind_ok hp
    replace hp : (Except.ok (cat.renameCol sch.target pcol) :
        Except PyError DataFrame) = Except.ok out := hp
    injection hp with hp
    subst hp
    have hf1 := listMapM_forall₂ h1
    have hf2 := listMapM_forall₂ h2
    refine ⟨?_, ?_, ?_⟩
    · calc (cat.renameCol sch.target pcol).rows.length
          = cat.rows.length := rfl
        _ = (blocks.map (fun d => d.rows.length)).sum := dfConcat_ok h3
        _ = ((f.all_ids.zip sers).map (fun p => p.2.rows.length)).sum :=
            forall₂_sum_map (fun p => p.2.rows.length) (fun d => d.rows.length)
              (fun a b hb => forecastBlock_ok hb) hf2
        _ = (f.all_ids.map (fun k => test.idCount sch.id_col k)).sum :=
            forall₂_zip_sum (fun k => test.idCount sch.id_col k)
              (fun d => d.rows.length) (fun a b hb => (seriesFor_ok hb).1) hf1
    · intro k hk
      obtain ⟨s, hsok⟩ := forall₂_mem_left hf1 k hk
      exact (seriesFor_ok hsok).2
    · refine ⟨blocks, ?_, ?_⟩
      · show cat.rows = blocks.foldr (fun b acc => b.rows ++ acc) []
        exact dfConcat_ok_rows h3
      refine List.Forall₂.imp ?_ (forall₂_zip_combine hf1 hf2)
      intro k b hkb
      obtain ⟨s, hR1, hR2⟩ := hkb
      obtain ⟨fc, hpo, hb⟩ := forecastBlock_ok_eq hR2
      obtain ⟨ps, hlen, hfc⟩ := predictOnSeries_ok_some_eq hpo
      subst hfc
      constructor
      · rw [hb]
        show ((s.assign sch.target ps).insertCol0 sch.id_col k).rows.length = _
        unfold DataFrame.insertCol0
        simp only [List.length_map, assign_rows_length, hlen, Nat.min_self]
        exact (seriesFor_ok hR1).1
      · exact ⟨s, ps, hR1, hlen, hb⟩

/-- C4 witness: the amended theorem applied to the concrete successful run
of the model trained on {A,B} predicting over an input that interleaves two
A rows and three B rows. -/
theorem C4_row_count_witness :
    ({ cols := ["id", "p"]
       rows := [[.str "A", .int 0], [.str "A", .int 0],
                [.str "B", .int 0], [.str "B", .int 0],
                [.str "B", .int 0]] } : DataFrame).rows.length =
      (fcTrainedAB.all_ids.map (fun k => dfTestABmix.idCount schemaNoCov.id_col k)).sum
    ∧ (∀ k ∈ fcTrainedAB.all_ids, dfTestABmix.idCount schemaNoCov.id_col k ≠ 0)
    ∧ ∃ blocks : List DataFrame,
        ({ cols := ["id", "p"]
           rows := [[.str "A", .int 0], [.str "A", .int 0],
                    [.str "B", .int 0], [.str "B", .int 0],
                    [.str "B", .int 0]] } : DataFrame).rows =
          blocks.foldr (fun b acc => b.rows ++ acc) []
        ∧ List.Forall₂ (fun k b =>
            b.rows.length = dfTestABmix.idCount schemaNoCov.id_col k
            ∧ ∃ s ps, Forecaster.seriesFor schemaNoCov dfTestABmix k = Except.ok s
                ∧ ps.length = s.rows.length
                ∧ b = (s.assign schemaNoCov.target ps).insertCol0 schemaNoCov.id_col k)
          fcTrainedAB.all_ids blocks :=
  C4_row_count_amended fcTrainedAB regZero dfTestABmix "p" _ schemaNoCov rfl rfl
